import Mathlib

/-!
Shallow embedding of `node-mysql-dbc` (src/index.js): a MySQL connection
helper offering a connection pool facade, a transaction runner with
rollback-by-sentinel semantics, and a parameterized SQL query builder.

Values bound as SQL arguments are modelled by `Val` (a fragment of the
JavaScript value universe sufficient for the claims); a JavaScript record
is an association list in key-insertion order (`Reflect.ownKeys` order for
string keys).  Each query-builder method is embedded as a function from its
inputs to `Except String (List Stmt)`: a thrown `Error(msg)` becomes
`.error msg`, and a successful run returns the list of statements handed to
the underlying `conn.query` primitive, in order — so `.error` means the
method threw before any SQL was issued, and the list length counts query
round trips.
-/

namespace MysqlDbc

/-- JavaScript values appearing as SQL arguments. -/
inductive Val where
  | undef
  | null
  | int (n : Int)
  | str (s : String)
deriving DecidableEq, Repr

/-- One parameterized statement handed to `conn.query(sql, args)`. -/
structure Stmt where
  sql : String
  args : List Val
deriving DecidableEq, Repr

/-- A JavaScript record: key/value pairs in key-insertion order. -/
abbrev JsObj := List (String × Val)

/-- `Reflect.ownKeys(info)`: the record's keys in enumeration order. -/
def ownKeys (info : JsObj) : List String := info.map Prod.fst

/-- `info[key]`: property lookup, `undefined` when the key is absent.
(JavaScript object keys are unique, so first-match lookup is exact.) -/
def getProp : JsObj → String → Val
  | [], _ => Val.undef
  | (k, v) :: rest, key => if key = k then v else getProp rest key

/-- The statements a builder run issued: none when it threw. -/
def stmtsOf : Except String (List Stmt) → List Stmt
  | .ok l => l
  | .error _ => []

/-- `Connection.insertOne(table, fields, values)` (src/index.js:133-138). -/
def insertOne (table : String) (fields : List String) (values : List Val) :
    Except String (List Stmt) :=
  let fs := String.intercalate ", " fields
  let vs := String.intercalate ", " (fields.map (fun _ => "?"))
  .ok [⟨"INSERT INTO " ++ table ++ " (" ++ fs ++ ") VALUES (" ++ vs ++ ")", values⟩]

/-- `Connection.insertMany(table, fields, list)` (src/index.js:146-166):
one `?` placeholder per field, one value tuple per row joined by `, `,
arguments the one-level flattening of the rows. -/
def insertMany (table : String) (fields : List String) (list : List (List Val)) :
    Except String (List Stmt) :=
  let placeholders := fields.map (fun _ => "?")
  let fs := "(" ++ String.intercalate ", " fields ++ ")"
  let vs := "(" ++ String.intercalate ", " placeholders ++ ")"
  let sql := "INSERT INTO " ++ table ++ " " ++ fs ++ " VALUES " ++
    String.intercalate ", " (list.map (fun _ => vs))
  .ok [⟨sql, list.flatten⟩]

/-- `Connection.insertManyObjects(table, objects)` (src/index.js:168-172):
derives the field list from `objects[0]`; on an empty list `objects[0]` is
`undefined` and `Reflect.ownKeys(undefined)` throws a `TypeError`. -/
def insertManyObjects (table : String) (objects : List JsObj) :
    Except String (List Stmt) :=
  match objects with
  | [] => .error "TypeError: Reflect.ownKeys called on non-object"
  | obj0 :: _ =>
    let fields := ownKeys obj0
    let list := objects.map (fun obj => fields.map (getProp obj))
    insertMany table fields list

/-- `Connection.updateOne(table, id, fields, values)` (src/index.js:174-188). -/
def updateOne (table : String) (id : Val) (fields : List String)
    (values : List Val) : Except String (List Stmt) :=
  if fields.length = 0 then
    .error "no fields to update"
  else if values.length ≠ fields.length then
    .error "values.length !== fields.length"
  else
    let fs := String.intercalate ", " (fields.map (fun field => field ++ " = ?"))
    .ok [⟨"UPDATE " ++ table ++ " SET " ++ fs ++ " WHERE id = ?", values ++ [id]⟩]

/-- `Connection.updateOneByFields(table, fields, values, whereFields,
whereValues)` (src/index.js:190-210).  Note the source writes the keywords
of this statement in lowercase: `update … set … where …`. -/
def updateOneByFields (table : String) (fields : List String) (values : List Val)
    (whereFields : List String) (whereValues : List Val) :
    Except String (List Stmt) :=
  if fields.length = 0 then
    .error "no fields to update"
  else if values.length ≠ fields.length then
    .error "values.length !== fields.length"
  else if whereFields.length ≠ whereValues.length then
    .error "where values.length !== where fields.length"
  else
    let fs := String.intercalate ", " (fields.map (fun field => field ++ " = ?"))
    let whereFs :=
      String.intercalate " AND " (whereFields.map (fun field => field ++ " = ?"))
    .ok [⟨"update " ++ table ++ " set " ++ fs ++ " where " ++ whereFs,
      values ++ whereValues⟩]

/-- `Connection.updateOneObject(table, info)` (src/index.js:212-223): walks
`Reflect.ownKeys(info)`, keeping every key other than `id`, `ctime`,
`mtime` together with its looked-up value, then delegates to `updateOne`
with `info.id` as the row key. -/
def updateOneObject (table : String) (info : JsObj) : Except String (List Stmt) :=
  let kept := (ownKeys info).filter
    (fun k => k != "id" && k != "ctime" && k != "mtime")
  updateOne table (getProp info "id") kept (kept.map (getProp info))

/-- An error thrown by a JavaScript unit of work: either an instance of the
`RollbackError` sentinel class (src/index.js:3-9) or any other error. -/
inductive JsErr where
  | rollbackSentinel (msg : String)
  | other (info : String)
deriving DecidableEq, Repr

/-- The behaviour of the caller-supplied unit of work `fn` inside
`doTransaction`: the statements it issued on this connection before
finishing, and whether it resolved with a value or raised an error. -/
structure UnitOfWork where
  trace : List Stmt
  outcome : Except JsErr Val
deriving Repr

/-- `Connection.doTransaction(fn)` (src/index.js:76-89): issue `BEGIN`, run
`fn`; on normal completion issue `COMMIT` and return the result; on an
error issue `ROLLBACK` first and then re-raise the error unless it is a
`RollbackError`, in which case the method returns `undefined` (`none`).
The result pairs the full statement trace of the connection with the
method's own outcome. -/
def doTransaction (fn : UnitOfWork) : List Stmt × Except JsErr (Option Val) :=
  match fn.outcome with
  | .ok res =>
    (⟨"BEGIN", []⟩ :: fn.trace ++ [⟨"COMMIT", []⟩], .ok (some res))
  | .error e =>
    let t := ⟨"BEGIN", []⟩ :: fn.trace ++ [⟨"ROLLBACK", []⟩]
    match e with
    | .rollbackSentinel _ => (t, .ok none)
    | .other _ => (t, .error e)

/-- How many statements of a trace have the given SQL text. -/
def countSql (s : String) (t : List Stmt) : Nat :=
  (t.filter (fun st => st.sql == s)).length

/-- Pool checkout events observed by `Connection.run`. -/
inductive ConnEvent where
  | acquired
  | released
deriving DecidableEq, Repr

/-- The possible behaviours of `func.apply(conn, args)` inside
`Connection.run`'s `try` block: resolve with a value, return a promise
that rejects, or throw synchronously during invocation.  A synchronous
throw happens inside the `try`, so it reaches the same `finally`. -/
inductive CallOutcome where
  | resolved (v : Val)
  | rejected (e : JsErr)
  | syncThrow (e : JsErr)
deriving DecidableEq, Repr

/-- `Connection.run(pooler, func, args)` (src/index.js:17-25), the body of
every `withConnection`-wrapped function (src/index.js:294-299): after the
connection is acquired, `await func.apply(conn, args)` runs in a `try`
whose `finally` releases the connection; the `try` result or error is then
propagated.  Returns the checkout event trace and the propagated outcome. -/
def connectionRun (body : CallOutcome) : List ConnEvent × Except JsErr Val :=
  match body with
  | .resolved v => ([.acquired, .released], .ok v)
  | .rejected e => ([.acquired, .released], .error e)
  | .syncThrow e => ([.acquired, .released], .error e)

/-- C1: for every transaction run via `doTransaction` whose unit of work
raises the `RollbackError` sentinel (having itself issued no
transaction-control statements), a `ROLLBACK` is issued exactly once, no
`COMMIT` is issued, and `doTransaction` resolves with no value and no
error — the sentinel is not re-raised. -/
theorem doTransaction_sentinel_rolls_back (fn : UnitOfWork) (msg : String)
    (ho : fn.outcome = .error (.rollbackSentinel msg))
    (hr : countSql "ROLLBACK" fn.trace = 0)
    (hc : countSql "COMMIT" fn.trace = 0) :
    countSql "ROLLBACK" (doTransaction fn).1 = 1 ∧
    countSql "COMMIT" (doTransaction fn).1 = 0 ∧
    (doTransaction fn).2 = .ok none := by
  simp only [countSql] at hr hc
  simp [doTransaction, ho, countSql, List.filter_append, hr, hc]

theorem doTransaction_sentinel_rolls_back_witness :
    countSql "ROLLBACK"
      (doTransaction ⟨[⟨"INSERT INTO t (a) VALUES (?)", [Val.int 1]⟩],
        .error (.rollbackSentinel "abort")⟩).1 = 1 ∧
    countSql "COMMIT"
      (doTransaction ⟨[⟨"INSERT INTO t (a) VALUES (?)", [Val.int 1]⟩],
        .error (.rollbackSentinel "abort")⟩).1 = 0 ∧
    (doTransaction ⟨[⟨"INSERT INTO t (a) VALUES (?)", [Val.int 1]⟩],
      .error (.rollbackSentinel "abort")⟩).2 = .ok none :=
  doTransaction_sentinel_rolls_back
    ⟨[⟨"INSERT INTO t (a) VALUES (?)", [Val.int 1]⟩],
      .error (.rollbackSentinel "abort")⟩ "abort" rfl (by decide) (by decide)

/-- C2: for every transaction run via `doTransaction` whose unit of work
raises a non-sentinel error (having itself issued no transaction-control
statements), the trace is `BEGIN`, the unit of work's statements, then
`ROLLBACK` — so the rollback is issued exactly once, before the error
decision — and the original error is re-raised unchanged. -/
theorem doTransaction_error_rethrows (fn : UnitOfWork) (info : String)
    (ho : fn.outcome = .error (.other info))
    (hr : countSql "ROLLBACK" fn.trace = 0)
    (hc : countSql "COMMIT" fn.trace = 0) :
    (doTransaction fn).1 = ⟨"BEGIN", []⟩ :: fn.trace ++ [⟨"ROLLBACK", []⟩] ∧
    countSql "ROLLBACK" (doTransaction fn).1 = 1 ∧
    countSql "COMMIT" (doTransaction fn).1 = 0 ∧
    (doTransaction fn).2 = .error (.other info) := by
  simp only [countSql] at hr hc
  simp [doTransaction, ho, countSql, List.filter_append, hr, hc]

theorem doTransaction_error_rethrows_witness :
    (doTransaction ⟨[⟨"DELETE FROM t WHERE id = ?", [Val.int 2]⟩],
      .error (.other "ER_DUP_ENTRY")⟩).1 =
      ⟨"BEGIN", []⟩ :: [⟨"DELETE FROM t WHERE id = ?", [Val.int 2]⟩] ++
        [⟨"ROLLBACK", []⟩] ∧
    countSql "ROLLBACK"
      (doTransaction ⟨[⟨"DELETE FROM t WHERE id = ?", [Val.int 2]⟩],
        .error (.other "ER_DUP_ENTRY")⟩).1 = 1 ∧
    countSql "COMMIT"
      (doTransaction ⟨[⟨"DELETE FROM t WHERE id = ?", [Val.int 2]⟩],
        .error (.other "ER_DUP_ENTRY")⟩).1 = 0 ∧
    (doTransaction ⟨[⟨"DELETE FROM t WHERE id = ?", [Val.int 2]⟩],
      .error (.other "ER_DUP_ENTRY")⟩).2 = .error (.other "ER_DUP_ENTRY") :=
  doTransaction_error_rethrows
    ⟨[⟨"DELETE FROM t WHERE id = ?", [Val.int 2]⟩],
      .error (.other "ER_DUP_ENTRY")⟩ "ER_DUP_ENTRY" rfl (by decide) (by decide)

/-- C3: for every transaction run via `doTransaction` whose unit of work
completes without error (having itself issued no transaction-control
statements), a `COMMIT` is issued exactly once, no `ROLLBACK` is ever
issued, and `doTransaction` returns the unit of work's result value. -/
theorem doTransaction_ok_commits (fn : UnitOfWork) (res : Val)
    (ho : fn.outcome = .ok res)
    (hr : countSql "ROLLBACK" fn.trace = 0)
    (hc : countSql "COMMIT" fn.trace = 0) :
    countSql "COMMIT" (doTransaction fn).1 = 1 ∧
    countSql "ROLLBACK" (doTransaction fn).1 = 0 ∧
    (doTransaction fn).2 = .ok (some res) := by
  simp only [countSql] at hr hc
  simp [doTransaction, ho, countSql, List.filter_append, hr, hc]

theorem doTransaction_ok_commits_witness :
    countSql "COMMIT"
      (doTransaction ⟨[⟨"UPDATE t SET a = ? WHERE id = ?",
        [Val.int 1, Val.int 2]⟩], .ok (Val.int 1)⟩).1 = 1 ∧
    countSql "ROLLBACK"
      (doTransaction ⟨[⟨"UPDATE t SET a = ? WHERE id = ?",
        [Val.int 1, Val.int 2]⟩], .ok (Val.int 1)⟩).1 = 0 ∧
    (doTransaction ⟨[⟨"UPDATE t SET a = ? WHERE id = ?",
      [Val.int 1, Val.int 2]⟩], .ok (Val.int 1)⟩).2 = .ok (some (Val.int 1)) :=
  doTransaction_ok_commits
    ⟨[⟨"UPDATE t SET a = ? WHERE id = ?", [Val.int 1, Val.int 2]⟩],
      .ok (Val.int 1)⟩ (Val.int 1) rfl (by decide) (by decide)

/-- C8: for every invocation of a `withConnection`-wrapped function, once
the connection has been acquired it is released back to the pool exactly
once — on normal resolution, on asynchronous rejection, and on a
synchronous throw during invocation — never zero times and never twice;
the inner outcome is propagated. -/
theorem connectionRun_releases_once (body : CallOutcome) :
    (connectionRun body).1.count ConnEvent.released = 1 ∧
    (connectionRun body).1.count ConnEvent.acquired = 1 ∧
    (connectionRun body).2 = (match body with
      | .resolved v => .ok v
      | .rejected e => .error e
      | .syncThrow e => .error e) := by
  cases body <;> simp [connectionRun]

/-- C4: `updateOne` and `updateOneByFields` throw `no fields to update`
when the field list is empty, and the length-mismatch errors when the
value list disagrees with the field list (and, for `updateOneByFields`,
when the where-value list disagrees with the where-field list); in every
such case the error is raised before any SQL is issued — no statement
reaches the query primitive. -/
theorem update_validation_errors (t : String) (id : Val) (fs ws : List String)
    (vs wvs : List Val) :
    (updateOne t id [] vs = .error "no fields to update" ∧
      stmtsOf (updateOne t id [] vs) = []) ∧
    (fs ≠ [] → vs.length ≠ fs.length →
      updateOne t id fs vs = .error "values.length !== fields.length" ∧
      stmtsOf (updateOne t id fs vs) = []) ∧
    (updateOneByFields t [] vs ws wvs = .error "no fields to update" ∧
      stmtsOf (updateOneByFields t [] vs ws wvs) = []) ∧
    (fs ≠ [] → vs.length ≠ fs.length →
      updateOneByFields t fs vs ws wvs =
        .error "values.length !== fields.length" ∧
      stmtsOf (updateOneByFields t fs vs ws wvs) = []) ∧
    (fs ≠ [] → vs.length = fs.length → ws.length ≠ wvs.length →
      updateOneByFields t fs vs ws wvs =
        .error "where values.length !== where fields.length" ∧
      stmtsOf (updateOneByFields t fs vs ws wvs) = []) := by
  refine ⟨?_, ?_, ?_, ?_, ?_⟩ <;> intros <;>
    simp_all [updateOne, updateOneByFields, stmtsOf, List.length_eq_zero]

theorem update_validation_errors_witness :
    (updateOne "t" (Val.int 1) [] [] = .error "no fields to update" ∧
      stmtsOf (updateOne "t" (Val.int 1) [] []) = []) ∧
    (updateOne "t" (Val.int 1) ["a", "b"] [Val.int 1] =
      .error "values.length !== fields.length" ∧
      stmtsOf (updateOne "t" (Val.int 1) ["a", "b"] [Val.int 1]) = []) ∧
    (updateOneByFields "t" ["a"] [Val.int 1] ["b"] [] =
      .error "where values.length !== where fields.length" ∧
      stmtsOf (updateOneByFields "t" ["a"] [Val.int 1] ["b"] []) = []) :=
  ⟨(update_validation_errors "t" (Val.int 1) ["a", "b"] ["b"] [Val.int 1] []).1,
    (update_validation_errors "t" (Val.int 1) ["a", "b"] ["b"] [Val.int 1] []).2.1
      (by decide) (by decide),
    (update_validation_errors "t" (Val.int 1) ["a"] ["b"] [Val.int 1] []).2.2.2.2
      (by decide) (by decide) (by decide)⟩

/-- C9: `insertManyObjects` on an empty record list throws (reading the
keys of the absent first record fails) before generating any SQL or
issuing any query — it never sends a malformed INSERT for zero records. -/
theorem insertManyObjects_empty_throws (table : String) :
    insertManyObjects table [] =
      .error "TypeError: Reflect.ownKeys called on non-object" ∧
    stmtsOf (insertManyObjects table []) = [] :=
  ⟨rfl, rfl⟩

/-- C10: `updateOneObject` on a non-empty record whose every key is one of
`id`, `ctime`, `mtime` throws `no fields to update` and issues no SQL. -/
theorem updateOneObject_only_metadata_throws (table : String) (info : JsObj)
    (hk : ∀ p ∈ info, p.1 = "id" ∨ p.1 = "ctime" ∨ p.1 = "mtime")
    (hne : info ≠ []) :
    updateOneObject table info = .error "no fields to update" ∧
    stmtsOf (updateOneObject table info) = [] := by
  have hfil : (ownKeys info).filter
      (fun k => k != "id" && k != "ctime" && k != "mtime") = [] := by
    rw [List.filter_eq_nil_iff]
    intro k hkmem
    obtain ⟨⟨k', v⟩, hp, rfl⟩ := List.mem_map.mp hkmem
    rcases hk _ hp with h | h | h <;> simp_all
  simp [updateOneObject, hfil, updateOne, stmtsOf]

theorem updateOneObject_only_metadata_throws_witness :
    updateOneObject "t" [("id", Val.int 5), ("ctime", Val.int 3),
      ("mtime", Val.int 4)] = .error "no fields to update" ∧
    stmtsOf (updateOneObject "t" [("id", Val.int 5), ("ctime", Val.int 3),
      ("mtime", Val.int 4)]) = [] :=
  updateOneObject_only_metadata_throws "t"
    [("id", Val.int 5), ("ctime", Val.int 3), ("mtime", Val.int 4)]
    (by decide) (by decide)

/-- C7 counterexample: the claim predicts the uppercase statement
`UPDATE t SET a = ? WHERE b = ?`, but `updateOneByFields` writes its SQL
keywords in lowercase, so the generated text differs. -/
theorem updateOneByFields_uppercase_counterexample :
    stmtsOf (updateOneByFields "t" ["a"] [Val.int 1] ["b"] [Val.int 2]) =
      [⟨"update t set a = ? where b = ?", [Val.int 1, Val.int 2]⟩] ∧
    "update t set a = ? where b = ?" ≠ "UPDATE t SET a = ? WHERE b = ?" := by
  constructor
  · rfl
  · decide

/-- C7 (amended): for a non-empty set-field list with matching set values
and equal-length where lists, `updateOneByFields` generates
`update T set f1 = ?, ... where w1 = ? AND ...` — the spec's shape but
with lowercase `update`/`set`/`where` keywords (the `AND` joiner is
uppercase) — and the argument list is the set values followed by the
where values, in order. -/
theorem updateOneByFields_shape (table : String) (fields whereFields : List String)
    (values whereValues : List Val)
    (h1 : fields ≠ []) (h2 : values.length = fields.length)
    (h3 : whereFields.length = whereValues.length) :
    updateOneByFields table fields values whereFields whereValues =
      .ok [⟨"update " ++ table ++ " set " ++
        String.intercalate ", " (fields.map (fun f => f ++ " = ?")) ++
        " where " ++
        String.intercalate " AND " (whereFields.map (fun f => f ++ " = ?")),
        values ++ whereValues⟩] := by
  simp [updateOneByFields, h2, h3, List.length_eq_zero, h1]

theorem updateOneByFields_shape_witness :
    updateOneByFields "t" ["a", "b"] [Val.int 1, Val.int 2] ["c", "d"]
      [Val.int 3, Val.int 4] =
      .ok [⟨"update t set a = ?, b = ? where c = ? AND d = ?",
        [Val.int 1, Val.int 2, Val.int 3, Val.int 4]⟩] := by
  have h := updateOneByFields_shape "t" ["a", "b"] ["c", "d"]
    [Val.int 1, Val.int 2] [Val.int 3, Val.int 4]
    (by decide) (by decide) (by decide)
  simpa using h

/-- Flattening uniform-length rows preserves row order and in-row order:
element `i * k + j` of the flattening is element `j` of row `i`. -/
theorem flatten_getElem_uniform (k : Nat) (l : List (List Val))
    (hk : ∀ r ∈ l, r.length = k) (i j : Nat) (hj : j < k) :
    l.flatten[i * k + j]? = l[i]?.bind (fun r => r[j]?) := by
  induction l generalizing i with
  | nil => simp
  | cons r rs ih =>
    have hr : r.length = k := hk r (List.mem_cons_self ..)
    cases i with
    | zero =>
      rw [List.flatten_cons, Nat.zero_mul, Nat.zero_add,
        List.getElem?_append_left (by omega)]
      simp
    | succ i =>
      have harith : (i + 1) * k + j = r.length + (i * k + j) := by
        rw [hr]; ring
      rw [List.flatten_cons, harith,
        List.getElem?_append_right (by omega), Nat.add_sub_cancel_left,
        ih (fun r hmem => hk r (List.mem_cons_of_mem _ hmem)) i]
      simp

/-- C5: for every table, non-empty field list of length `k` and list of
`n` rows of `k` values each, `insertMany` generates the single statement
`INSERT INTO T (f1, ..., fk) VALUES (?, ..., ?), ..., (?, ..., ?)` with
the value tuple repeated `n` times; the arguments are all rows flattened,
with row order and in-row field order preserved (argument `i * k + j` is
value `j` of row `i`); exactly one query round trip is performed. -/
theorem insertMany_shape (table : String) (fields : List String)
    (list : List (List Val)) (k : Nat)
    (hk : fields.length = k) (hne : fields ≠ [])
    (hrows : ∀ r ∈ list, r.length = k) :
    insertMany table fields list =
      .ok [⟨"INSERT INTO " ++ table ++ " (" ++
        String.intercalate ", " fields ++ ") VALUES " ++
        String.intercalate ", "
          (List.replicate list.length
            ("(" ++ String.intercalate ", " (List.replicate k "?") ++ ")")),
        list.flatten⟩] ∧
    (stmtsOf (insertMany table fields list)).length = 1 ∧
    (∀ i j, j < k →
      list.flatten[i * k + j]? = list[i]?.bind (fun r => r[j]?)) := by
  refine ⟨?_, rfl, fun i j hj => flatten_getElem_uniform k list hrows i j hj⟩
  have e1 : (" (" : String) = " " ++ "(" := rfl
  have e2 : (") VALUES " : String) = ")" ++ " VALUES " := rfl
  simp only [insertMany, List.map_const, List.map_const', hk, e1, e2,
    String.append_assoc]

theorem insertMany_shape_witness :
    insertMany "t" ["a"] [[Val.int 1], [Val.int 2], [Val.int 3]] =
      .ok [⟨"INSERT INTO t (a) VALUES (?), (?), (?)",
        [Val.int 1, Val.int 2, Val.int 3]⟩] ∧
    [[Val.int 1], [Val.int 2], [Val.int 3]].flatten[1 * 1 + 0]? =
      some (Val.int 2) := by
  have h := insertMany_shape "t" ["a"] [[Val.int 1], [Val.int 2], [Val.int 3]]
    1 (by decide) (by decide) (by decide)
  refine ⟨?_, ?_⟩
  · have h1 := h.1
    simpa using h1
  · have h2 := h.2.2 1 0 (by decide)
    simpa using h2

/-- Filtering a record's key list by a key predicate matches filtering the
record's entries and projecting the keys. -/
theorem ownKeys_filter (p : String → Bool) (info : JsObj) :
    (ownKeys info).filter p = (info.filter (fun q => p q.1)).map Prod.fst := by
  induction info with
  | nil => rfl
  | cons q rest ih =>
    obtain ⟨k, v⟩ := q
    by_cases hp : p k <;> simp [ownKeys, List.filter_cons, hp] <;>
      simpa [ownKeys] using ih

/-- On a record with no duplicate keys, looking up each kept key yields
exactly the kept entries' values, in entry order. -/
theorem map_getProp_filter (info : JsObj) (hnd : (ownKeys info).Nodup)
    (p : String → Bool) :
    ((ownKeys info).filter p).map (getProp info) =
      (info.filter (fun q => p q.1)).map Prod.snd := by
  induction info with
  | nil => rfl
  | cons q rest ih =>
    obtain ⟨k, v⟩ := q
    have hcons : ownKeys ((k, v) :: rest) = k :: ownKeys rest := rfl
    rw [hcons] at hnd
    have hknot : k ∉ ownKeys rest := (List.nodup_cons.mp hnd).1
    have hrest : (ownKeys rest).Nodup := (List.nodup_cons.mp hnd).2
    have hmap : ((ownKeys rest).filter p).map (getProp ((k, v) :: rest)) =
        ((ownKeys rest).filter p).map (getProp rest) := by
      apply List.map_congr_left
      intro x hx
      have hxmem : x ∈ ownKeys rest := List.mem_of_mem_filter hx
      have hxk : x ≠ k := fun h => hknot (h ▸ hxmem)
      simp [getProp, hxk]
    by_cases hp : p k
    · rw [hcons]
      rw [List.filter_cons_of_pos (by simpa using hp), List.map_cons, hmap,
        ih hrest, List.filter_cons_of_pos (by simpa using hp), List.map_cons]
      simp [getProp]
    · rw [hcons]
      rw [List.filter_cons_of_neg (by simpa using hp), hmap, ih hrest,
        List.filter_cons_of_neg (by simpa using hp)]

/-- C6: for every record with distinct keys, `updateOneObject` excludes
`id`, `ctime` and `mtime` from the SET clause; every other entry appears
in the SET clause in the record's own key order with its value as the
matching argument, and the record's `id` value is the WHERE key, appended
as the final argument.  (The kept entries must be non-empty, else
`updateOne` throws.) -/
theorem updateOneObject_shape (table : String) (info : JsObj)
    (hnd : (ownKeys info).Nodup)
    (hne : info.filter
      (fun q => q.1 != "id" && q.1 != "ctime" && q.1 != "mtime") ≠ []) :
    updateOneObject table info =
      .ok [⟨"UPDATE " ++ table ++ " SET " ++
        String.intercalate ", "
          ((info.filter
            (fun q => q.1 != "id" && q.1 != "ctime" && q.1 != "mtime")).map
              (fun q => q.1 ++ " = ?")) ++ " WHERE id = ?",
        (info.filter
          (fun q => q.1 != "id" && q.1 != "ctime" && q.1 != "mtime")).map
            Prod.snd ++ [getProp info "id"]⟩] := by
  have hkeys := ownKeys_filter
    (fun k => k != "id" && k != "ctime" && k != "mtime") info
  have hvals := map_getProp_filter info hnd
    (fun k => k != "id" && k != "ctime" && k != "mtime")
  rw [updateOneObject, hvals, hkeys]
  have hlen : ((info.filter
      (fun q => q.1 != "id" && q.1 != "ctime" && q.1 != "mtime")).map
        Prod.fst).length ≠ 0 := by
    simpa [List.length_eq_zero] using hne
  rw [updateOne, if_neg hlen, if_neg (by simp)]
  simp [List.map_map, Function.comp_def]

theorem updateOneObject_shape_witness :
    updateOneObject "t" [("id", Val.int 5), ("ctime", Val.int 7),
      ("mtime", Val.int 8), ("name", Val.str "n")] =
      .ok [⟨"UPDATE t SET name = ? WHERE id = ?",
        [Val.str "n", Val.int 5]⟩] := by
  have h := updateOneObject_shape "t" [("id", Val.int 5), ("ctime", Val.int 7),
    ("mtime", Val.int 8), ("name", Val.str "n")] (by decide) (by decide)
  simpa using h

end MysqlDbc
